import Mathlib

/-!
Shallow embedding of the Scraper Session Controller
(`src/src/scrapers/base_scraper.py`, class `BaseScraper`).

The controller drives an external browser engine and a site strategy.
Both are modelled as an oracle environment `Env` whose fields give the
outcome of each awaited external operation (`Except Err _` values:
`.error e` models the Python call raising exception `e`).  The mutable
fields of the Python object (`self.browser`, `self.page`, set by
`init_browser` and read by the other methods) are modelled by the state
`BaseScraper`, where `browser`/`page` are `true` exactly when the
corresponding `Optional[...]` field is set (non-`None`).

Each method is a function from the environment and the current state to
`(Except Err α, List Event, BaseScraper)`: the returned value or raised
exception, the ordered trace of observable events (external calls and
log lines) the call produced, and the updated object state.  A ghost
event `callCloseBrowser` is emitted on entry of `close_browser` so that
"`close_browser` is invoked exactly once" is a statement about the
trace; `callAuthenticate` / `callExtract` likewise mark the strategy
calls, and `enginePageClose` / `engineBrowserClose` mark the page or
browser actually being destroyed (emitted only when the engine close
succeeds, since a close that raises need not have destroyed anything).

Python truthiness of `if credentials:` and `if urls:` (where the value
is `None` or a dict / list) is modelled by `pyTruthyDict` / `pyTruthyList`:
`None` and the empty collection are falsy.
-/

namespace ScraperSpec

/-- Exceptions are opaque to the controller; we model them by their message. -/
abbrev Err := String

/-- `credentials: Dict[str, str]`, as an association list. -/
abbrev Credentials := List (String × String)

/-- One extracted record, `Dict[str, Any]`; opaque to the controller. -/
abbrev Record := List (String × String)

/-- Observable events of one run, in order: external engine calls,
strategy calls, and log lines. -/
inductive Event where
  | launch : Event
  | newPage : Event
  | enginePageClose : Event
  | engineBrowserClose : Event
  | engineGoto : String → Event
  | waitTimeout : Nat → Event
  | callAuthenticate : Credentials → Event
  | callExtract : String → Event
  | callCloseBrowser : Event
  | logInfo : String → Event
  | logError : String → Event
  deriving DecidableEq

/-- The mutable fields of the Python `BaseScraper` object.
`browser` / `page` are `true` iff the `Optional` field is set. -/
structure BaseScraper where
  site_name : String
  headless : Bool
  browser : Bool
  page : Bool
  base_url : String
  deriving DecidableEq

/-- `BaseScraper.__init__(site_name, headless)`. -/
def BaseScraper.init (site_name : String) (headless : Bool) : BaseScraper :=
  { site_name := site_name, headless := headless,
    browser := false, page := false, base_url := "" }

/-- Oracle environment: the outcome of every awaited external operation
(browser engine and site strategy) during one run. -/
structure Env where
  startResult : Except Err Unit
  launchResult : Except Err Unit
  newPageResult : Except Err Unit
  authenticateResult : Credentials → Except Err Bool
  extractResult : String → Except Err (List Record)
  gotoResult : String → Except Err Unit
  pageCloseResult : Except Err Unit
  browserCloseResult : Except Err Unit

/-- Python truthiness of an optional dict: `None` and `{}` are falsy. -/
def pyTruthyDict : Option Credentials → Bool
  | none => false
  | some m => !m.isEmpty

/-- Python truthiness of an optional list: `None` and `[]` are falsy. -/
def pyTruthyList : Option (List String) → Bool
  | none => false
  | some l => !l.isEmpty

/-- `init_browser`: start playwright, launch chromium (sets `self.browser`),
open a page (sets `self.page`), log completion.  Any step raising aborts
the method with that exception. -/
def init_browser (env : Env) (s : BaseScraper) :
    Except Err Unit × List Event × BaseScraper :=
  match env.startResult with
  | .error e => (.error e, [], s)
  | .ok _ =>
    match env.launchResult with
    | .error e => (.error e, [], s)
    | .ok _ =>
      let s1 := { s with browser := true }
      match env.newPageResult with
      | .error e => (.error e, [Event.launch], s1)
      | .ok _ =>
        let s2 := { s1 with page := true }
        (.ok (), [Event.launch, Event.newPage,
          Event.logInfo s!"[{s2.site_name}] completed browser initialization"], s2)

/-- `close_browser`: `if self.page: await self.page.close()`, then
`if self.browser: await self.browser.close()`, then log.  There is no
exception handling in the source: a failing close propagates and the
log line is not reached.  The fields are not reset to `None`. -/
def close_browser (env : Env) (s : BaseScraper) :
    Except Err Unit × List Event × BaseScraper :=
  if s.page then
    match env.pageCloseResult with
    | .error e => (.error e, [Event.callCloseBrowser], s)
    | .ok _ =>
      if s.browser then
        match env.browserCloseResult with
        | .error e =>
          (.error e, [Event.callCloseBrowser, Event.enginePageClose], s)
        | .ok _ =>
          (.ok (), [Event.callCloseBrowser, Event.enginePageClose,
            Event.engineBrowserClose,
            Event.logInfo s!"[{s.site_name}] the browser has been closed"], s)
      else
        (.ok (), [Event.callCloseBrowser, Event.enginePageClose,
          Event.logInfo s!"[{s.site_name}] the browser has been closed"], s)
  else
    if s.browser then
      match env.browserCloseResult with
      | .error e => (.error e, [Event.callCloseBrowser], s)
      | .ok _ =>
        (.ok (), [Event.callCloseBrowser, Event.engineBrowserClose,
          Event.logInfo s!"[{s.site_name}] the browser has been closed"], s)
    else
      (.ok (), [Event.callCloseBrowser,
        Event.logInfo s!"[{s.site_name}] the browser has been closed"], s)

/-- Exception text for `self.page.goto(...)` when `self.page` is `None`. -/
def pageNoneErr : Err := "AttributeError: NoneType object has no attribute goto"

/-- `navigate_to(url, wait_time)`: `page.goto(url, wait_until="networkidle",
timeout=30000)`, then `page.wait_for_timeout(wait_time)`, then an info log;
on any exception, an error log with the site name and the exception text,
then re-raise. -/
def navigate_to (env : Env) (s : BaseScraper) (url : String) (wait_time : Nat) :
    Except Err Unit × List Event × BaseScraper :=
  if s.page then
    match env.gotoResult url with
    | .ok _ =>
      (.ok (), [Event.engineGoto url, Event.waitTimeout wait_time,
        Event.logInfo s!"[{s.site_name}] successfully navigated to: {url}"], s)
    | .error e =>
      (.error e,
        [Event.engineGoto url,
         Event.logError s!"[{s.site_name}] failed to navigate to: {e}"], s)
  else
    (.error pageNoneErr,
      [Event.logError s!"[{s.site_name}] failed to navigate to: {pageNoneErr}"], s)

/-- Default of the `wait_time: int = 3000` parameter of `navigate_to`. -/
def navigateDefaultWait : Nat := 3000

/-- The authentication step of `run`: `if credentials: auth_success = await
self.authenticate(credentials); if not auth_success: log; return []`.
`.ok true` means "proceed to extraction", `.ok false` means the run
returns `[]`, `.error e` means `authenticate` raised `e`. -/
def auth_phase (env : Env) (s : BaseScraper) (credentials : Option Credentials) :
    Except Err Bool × List Event :=
  match credentials with
  | none => (.ok true, [])
  | some c =>
    if c.isEmpty then (.ok true, [])
    else
      match env.authenticateResult c with
      | .error e => (.error e, [Event.callAuthenticate c])
      | .ok true => (.ok true, [Event.callAuthenticate c])
      | .ok false =>
        (.ok false, [Event.callAuthenticate c,
          Event.logError s!"[{s.site_name}] authentication failed"])

/-- The extraction loop of `run`: `for url in urls: data = await
self.extract_data(url); all_data.extend(data)`, accumulator `acc`.
A raising `extract_data` aborts the loop and propagates. -/
def extract_all (env : Env) (urls : List String) (acc : List Record) :
    Except Err (List Record) × List Event :=
  match urls with
  | [] => (.ok acc, [])
  | u :: rest =>
    match env.extractResult u with
    | .error e => (.error e, [Event.callExtract u])
    | .ok data =>
      let r := extract_all env rest (acc ++ data)
      (r.1, Event.callExtract u :: r.2)

/-- The extraction step of `run`: `all_data = []; if urls: <loop>;
return all_data`. -/
def extract_phase (env : Env) (urls : Option (List String)) :
    Except Err (List Record) × List Event :=
  match urls with
  | none => (.ok [], [])
  | some l => if l.isEmpty then (.ok [], []) else extract_all env l []

/-- The `try` block of `run`: `init_browser`, then the authentication
step, then the extraction step. -/
def run_body (env : Env) (s : BaseScraper) (credentials : Option Credentials)
    (urls : Option (List String)) :
    Except Err (List Record) × List Event × BaseScraper :=
  match init_browser env s with
  | (.error e, tr, s1) => (.error e, tr, s1)
  | (.ok _, tr, s1) =>
    match auth_phase env s1 credentials with
    | (.error e, tra) => (.error e, tr ++ tra, s1)
    | (.ok false, tra) => (.ok [], tr ++ tra, s1)
    | (.ok true, tra) =>
      match extract_phase env urls with
      | (r, tre) => (r, tr ++ tra ++ tre, s1)

/-- `run(credentials=None, urls=None)`: the `try` body, an `except` clause
that logs `execution failed` and re-raises, and a `finally` clause that
awaits `close_browser`.  Per Python semantics, if `close_browser` itself
raises inside `finally`, its exception replaces the pending outcome
(normal return or pending exception alike). -/
def run (env : Env) (s : BaseScraper) (credentials : Option Credentials)
    (urls : Option (List String)) :
    Except Err (List Record) × List Event × BaseScraper :=
  match run_body env s credentials urls with
  | (body, tr, s1) =>
    let tr1 := match body with
      | .error e =>
        tr ++ [Event.logError s!"[{s1.site_name}] execution failed: {e}"]
      | .ok _ => tr
    match close_browser env s1 with
    | (.error e2, trc, s2) => (.error e2, tr1 ++ trc, s2)
    | (.ok _, trc, s2) => (body, tr1 ++ trc, s2)

/-- The raised exception or returned value of a method call. -/
def outcome {α : Type} (r : Except Err α × List Event × BaseScraper) :
    Except Err α := r.1

/-- The event trace of a method call (everything in it happened before
the call returned or raised). -/
def trace {α : Type} (r : Except Err α × List Event × BaseScraper) :
    List Event := r.2.1

/-- The object state after a method call. -/
def finalState {α : Type} (r : Except Err α × List Event × BaseScraper) :
    BaseScraper := r.2.2

/-- Event classifiers, used to count occurrences in a trace. -/
def evIsLaunch : Event → Bool
  | .launch => true
  | _ => false

def evIsNewPage : Event → Bool
  | .newPage => true
  | _ => false

def evIsPageClose : Event → Bool
  | .enginePageClose => true
  | _ => false

def evIsBrowserClose : Event → Bool
  | .engineBrowserClose => true
  | _ => false

def evIsCloseCall : Event → Bool
  | .callCloseBrowser => true
  | _ => false

def evIsAuthCall : Event → Bool
  | .callAuthenticate _ => true
  | _ => false

def evIsExtractCall : Event → Bool
  | .callExtract _ => true
  | _ => false

def evIsAuthOrExtract (ev : Event) : Bool := evIsAuthCall ev || evIsExtractCall ev

/-- The records `extract_data(u)` produces in environment `env`
(meaningful when `env.extractResult u` succeeds). -/
def extractedRecords (env : Env) (u : String) : List Record :=
  match env.extractResult u with
  | .ok d => d
  | .error _ => []

/-- `concat(extract(urls[0]), extract(urls[1]), ...)`. -/
def concatExtracted (env : Env) : List String → List Record
  | [] => []
  | u :: rest => extractedRecords env u ++ concatExtracted env rest

/-! ## Concrete fixtures (used to instantiate the theorems) -/

/-- A fully cooperative environment: every engine and strategy operation
succeeds, `authenticate` returns `True`, each URL extracts one record. -/
def okEnv : Env :=
  { startResult := .ok (), launchResult := .ok (), newPageResult := .ok (),
    authenticateResult := fun _ => .ok true,
    extractResult := fun u => .ok [[("url", u)]],
    gotoResult := fun _ => .ok (),
    pageCloseResult := .ok (), browserCloseResult := .ok () }

/-- The spec scenario: `extract_data("https://site/a")` yields one record,
`extract_data("https://site/b")` yields two. -/
def scenarioEnv : Env :=
  { okEnv with
    extractResult := fun u =>
      if u = "https://site/a" then .ok [[("id", "1")]]
      else if u = "https://site/b" then .ok [[("id", "2")], [("id", "3")]]
      else .ok [] }

/-- Authentication reports failure (the strategy returns `False`). -/
def authFailEnv : Env := { okEnv with authenticateResult := fun _ => .ok false }

/-- `extract_data` raises on the URL `"bad"` and succeeds elsewhere. -/
def extractFailEnv : Env :=
  { okEnv with
    extractResult := fun u =>
      if u = "bad" then .error "boom" else .ok [[("url", u)]] }

/-- `page.close()` raises during cleanup; everything else cooperates. -/
def cleanupFailEnv : Env :=
  { okEnv with pageCloseResult := .error "page close failed" }

/-- `page.goto` fails (navigation timeout). -/
def gotoFailEnv : Env :=
  { okEnv with gotoResult := fun _ => .error "Timeout 30000ms exceeded" }

/-- A freshly constructed scraper object. -/
def demoScraper : BaseScraper := BaseScraper.init "demo" true

/-- A scraper whose browser and page are set (state after `init_browser`). -/
def readyScraper : BaseScraper := { demoScraper with browser := true, page := true }

/-! ## Component lemmas -/

/-- `init_browser` when the engine start, launch and page-open succeed. -/
theorem init_browser_ok (env : Env) (s : BaseScraper)
    (hstart : env.startResult = .ok ()) (hlaunch : env.launchResult = .ok ())
    (hpage : env.newPageResult = .ok ()) :
    init_browser env s =
      (.ok (), [Event.launch, Event.newPage,
        Event.logInfo s!"[{s.site_name}] completed browser initialization"],
       { s with browser := true, page := true }) := by
  simp [init_browser, hstart, hlaunch, hpage]

/-- `close_browser` on a fully initialized state with succeeding closes. -/
theorem close_browser_ok_full (env : Env) (s : BaseScraper)
    (hp : s.page = true) (hb : s.browser = true)
    (hpc : env.pageCloseResult = .ok ()) (hbc : env.browserCloseResult = .ok ()) :
    close_browser env s =
      (.ok (), [Event.callCloseBrowser, Event.enginePageClose,
        Event.engineBrowserClose,
        Event.logInfo s!"[{s.site_name}] the browser has been closed"], s) := by
  simp [close_browser, hp, hb, hpc, hbc]

theorem auth_phase_none (env : Env) (s : BaseScraper) :
    auth_phase env s none = (.ok true, []) := rfl

theorem auth_phase_empty (env : Env) (s : BaseScraper) :
    auth_phase env s (some []) = (.ok true, []) := rfl

theorem auth_phase_true (env : Env) (s : BaseScraper) (c : Credentials)
    (hne : c.isEmpty = false) (hauth : env.authenticateResult c = .ok true) :
    auth_phase env s (some c) = (.ok true, [Event.callAuthenticate c]) := by
  simp [auth_phase, hne, hauth]

theorem auth_phase_false (env : Env) (s : BaseScraper) (c : Credentials)
    (hne : c.isEmpty = false) (hauth : env.authenticateResult c = .ok false) :
    auth_phase env s (some c) =
      (.ok false, [Event.callAuthenticate c,
        Event.logError s!"[{s.site_name}] authentication failed"]) := by
  simp [auth_phase, hne, hauth]

theorem auth_phase_raises (env : Env) (s : BaseScraper) (c : Credentials) (e : Err)
    (hne : c.isEmpty = false) (hauth : env.authenticateResult c = .error e) :
    auth_phase env s (some c) = (.error e, [Event.callAuthenticate c]) := by
  simp [auth_phase, hne, hauth]

/-- The extraction loop when every requested URL extracts successfully. -/
theorem extract_all_ok (env : Env) (l : List String) (acc : List Record)
    (h : ∀ u ∈ l, ∃ d, env.extractResult u = .ok d) :
    extract_all env l acc =
      (.ok (acc ++ concatExtracted env l), l.map Event.callExtract) := by
  induction l generalizing acc with
  | nil => simp [extract_all, concatExtracted]
  | cons u rest ih =>
    obtain ⟨d, hd⟩ := h u (List.mem_cons_self u rest)
    have hrest := ih (acc ++ d) (fun x hx => h x (List.mem_cons_of_mem _ hx))
    simp [extract_all, hd, hrest, concatExtracted, extractedRecords]

/-- The extraction loop when extraction first fails at `u`
(after the successful prefix `pre`). -/
theorem extract_all_fail (env : Env) (pre : List String) (u : String)
    (post : List String) (e : Err) (acc : List Record)
    (hpre : ∀ x ∈ pre, ∃ d, env.extractResult x = .ok d)
    (hu : env.extractResult u = .error e) :
    extract_all env (pre ++ u :: post) acc =
      (.error e, (pre ++ [u]).map Event.callExtract) := by
  induction pre generalizing acc with
  | nil => simp [extract_all, hu]
  | cons x rest ih =>
    obtain ⟨d, hd⟩ := hpre x (List.mem_cons_self x rest)
    have hrest := ih (acc ++ d) (fun y hy => hpre y (List.mem_cons_of_mem _ hy))
    simp [extract_all, hd, hrest]

/-- The extraction loop only ever emits `callExtract` events, for a
prefix of the requested URLs, in order. -/
theorem extract_all_trace_shape (env : Env) (l : List String) (acc : List Record) :
    ∃ n, (extract_all env l acc).2 = (l.take n).map Event.callExtract := by
  induction l generalizing acc with
  | nil => exact ⟨0, rfl⟩
  | cons u rest ih =>
    cases hres : env.extractResult u with
    | error e => exact ⟨1, by simp [extract_all, hres]⟩
    | ok d =>
      obtain ⟨n, hn⟩ := ih (acc ++ d)
      exact ⟨n + 1, by simp [extract_all, hres, hn]⟩

theorem extract_phase_trace_shape (env : Env) (urls : Option (List String)) :
    ∃ l : List String, (extract_phase env urls).2 = l.map Event.callExtract := by
  cases urls with
  | none => exact ⟨[], rfl⟩
  | some l =>
    cases hl : l.isEmpty
    · obtain ⟨n, hn⟩ := extract_all_trace_shape env l []
      exact ⟨l.take n, by simp [extract_phase, hl, hn]⟩
    · exact ⟨[], by simp [extract_phase, hl]⟩

/-- Every event of the `init_browser` trace is a launch, a page opening,
or an info log line. -/
theorem init_browser_trace_mem (env : Env) (s : BaseScraper) :
    ∀ ev ∈ (init_browser env s).2.1,
      ev = Event.launch ∨ ev = Event.newPage ∨ ∃ m, ev = Event.logInfo m := by
  intro ev hev
  cases hs : env.startResult <;> cases hl : env.launchResult <;>
    cases hn : env.newPageResult <;>
      simp_all [init_browser, hs, hl, hn] <;> aesop

/-- Every event of the `auth_phase` trace is an `authenticate` call or an
error log line. -/
theorem auth_phase_trace_mem (env : Env) (s : BaseScraper)
    (credentials : Option Credentials) :
    ∀ ev ∈ (auth_phase env s credentials).2,
      (∃ c, ev = Event.callAuthenticate c) ∨ ∃ m, ev = Event.logError m := by
  intro ev hev
  cases credentials with
  | none => simp [auth_phase] at hev
  | some c =>
    cases hc : c.isEmpty
    · cases hres : env.authenticateResult c with
      | error e => simp_all [auth_phase]
      | ok b => cases b <;> simp_all [auth_phase] <;> aesop
    · simp_all [auth_phase]

/-- Every event of the `close_browser` trace is the entry marker, an engine
close, or an info log line. -/
theorem close_browser_trace_mem (env : Env) (s : BaseScraper) :
    ∀ ev ∈ (close_browser env s).2.1,
      ev = Event.callCloseBrowser ∨ ev = Event.enginePageClose ∨
      ev = Event.engineBrowserClose ∨ ∃ m, ev = Event.logInfo m := by
  intro ev hev
  cases hp : s.page <;> cases hb : s.browser <;>
    cases hpc : env.pageCloseResult <;> cases hbc : env.browserCloseResult <;>
      simp_all [close_browser] <;> aesop

/-- `close_browser` emits its entry marker exactly once. -/
theorem close_browser_one_call (env : Env) (s : BaseScraper) :
    ((close_browser env s).2.1).countP evIsCloseCall = 1 := by
  cases hp : s.page <;> cases hb : s.browser <;>
    cases hpc : env.pageCloseResult <;> cases hbc : env.browserCloseResult <;>
      simp [close_browser, hp, hb, hpc, hbc, List.countP_cons, evIsCloseCall]

/-! ## Counting and filtering helpers -/

theorem init_browser_countP_zero (env : Env) (s : BaseScraper) (p : Event → Bool)
    (h1 : p Event.launch = false) (h2 : p Event.newPage = false)
    (h3 : ∀ m, p (Event.logInfo m) = false) :
    ((init_browser env s).2.1).countP p = 0 := by
  refine List.countP_eq_zero.mpr ?_
  intro ev hev
  rcases init_browser_trace_mem env s ev hev with rfl | rfl | ⟨m, rfl⟩ <;>
    simp [h1, h2, h3]

theorem auth_phase_countP_zero (env : Env) (s : BaseScraper)
    (credentials : Option Credentials) (p : Event → Bool)
    (h1 : ∀ c, p (Event.callAuthenticate c) = false)
    (h2 : ∀ m, p (Event.logError m) = false) :
    ((auth_phase env s credentials).2).countP p = 0 := by
  refine List.countP_eq_zero.mpr ?_
  intro ev hev
  rcases auth_phase_trace_mem env s credentials ev hev with ⟨c, rfl⟩ | ⟨m, rfl⟩ <;>
    simp [h1, h2]

theorem map_callExtract_countP_zero (p : Event → Bool)
    (hp : ∀ u, p (Event.callExtract u) = false) (l : List String) :
    (l.map Event.callExtract).countP p = 0 := by
  refine List.countP_eq_zero.mpr ?_
  intro ev hev
  obtain ⟨u, _, rfl⟩ := List.mem_map.mp hev
  simp [hp]

theorem extract_phase_countP_zero (env : Env) (urls : Option (List String))
    (p : Event → Bool) (hp : ∀ u, p (Event.callExtract u) = false) :
    ((extract_phase env urls).2).countP p = 0 := by
  obtain ⟨l, hl⟩ := extract_phase_trace_shape env urls
  rw [hl]
  exact map_callExtract_countP_zero p hp l

theorem close_browser_countP_zero (env : Env) (s : BaseScraper) (p : Event → Bool)
    (h1 : p Event.callCloseBrowser = false) (h2 : p Event.enginePageClose = false)
    (h3 : p Event.engineBrowserClose = false)
    (h4 : ∀ m, p (Event.logInfo m) = false) :
    ((close_browser env s).2.1).countP p = 0 := by
  refine List.countP_eq_zero.mpr ?_
  intro ev hev
  rcases close_browser_trace_mem env s ev hev with rfl | rfl | rfl | ⟨m, rfl⟩ <;>
    simp [h1, h2, h3, h4]

theorem filter_eq_nil_of_mem_false {p : Event → Bool} {tr : List Event}
    (h : ∀ ev ∈ tr, p ev = false) : tr.filter p = [] :=
  List.filter_eq_nil_iff.mpr (by intro a ha; simp [h a ha])

/-! ## Decomposition of `run` -/

/-- The body trace decomposes as init trace, then an authentication
part, then an extraction part. -/
theorem run_body_trace_decomp (env : Env) (s : BaseScraper)
    (credentials : Option Credentials) (urls : Option (List String)) :
    ∃ t2 t3 : List Event,
      (run_body env s credentials urls).2.1
        = (init_browser env s).2.1 ++ t2 ++ t3 ∧
      (t2 = [] ∨ t2 = (auth_phase env (init_browser env s).2.2 credentials).2) ∧
      (t3 = [] ∨ t3 = (extract_phase env urls).2) := by
  simp only [run_body]
  split
  next e tr s1 heq =>
    exact ⟨[], [], by simp [heq], Or.inl rfl, Or.inl rfl⟩
  next v tr s1 heq =>
    split
    next e tra heq2 =>
      exact ⟨tra, [], by simp [heq, heq2], Or.inr (by simp [heq, heq2]),
        Or.inl rfl⟩
    next tra heq2 =>
      exact ⟨tra, [], by simp [heq, heq2], Or.inr (by simp [heq, heq2]),
        Or.inl rfl⟩
    next tra heq2 =>
      exact ⟨tra, (extract_phase env urls).2, by simp [heq, heq2],
        Or.inr (by simp [heq, heq2]), Or.inr rfl⟩

/-- A predicate false on every body-event shape counts zero in the body
trace; in particular the `try` body never reaches `close_browser`. -/
theorem run_body_countP_zero (env : Env) (s : BaseScraper)
    (credentials : Option Credentials) (urls : Option (List String))
    (p : Event → Bool)
    (h1 : p Event.launch = false) (h2 : p Event.newPage = false)
    (h3 : ∀ m, p (Event.logInfo m) = false)
    (h4 : ∀ c, p (Event.callAuthenticate c) = false)
    (h5 : ∀ m, p (Event.logError m) = false)
    (h6 : ∀ u, p (Event.callExtract u) = false) :
    ((run_body env s credentials urls).2.1).countP p = 0 := by
  obtain ⟨t2, t3, hdec, ht2, ht3⟩ := run_body_trace_decomp env s credentials urls
  have hi := init_browser_countP_zero env s p h1 h2 h3
  have ha : t2.countP p = 0 := by
    rcases ht2 with rfl | heq
    · rfl
    · rw [heq]; exact auth_phase_countP_zero env _ credentials p h4 h5
  have he : t3.countP p = 0 := by
    rcases ht3 with rfl | heq
    · rfl
    · rw [heq]; exact extract_phase_countP_zero env urls p h6
  simp [hdec, List.countP_append, hi, ha, he]

theorem map_callExtract_filter_self (l : List String) :
    (l.map Event.callExtract).filter evIsExtractCall = l.map Event.callExtract := by
  induction l with
  | nil => rfl
  | cons u rest ih => simp [List.filter_cons, evIsExtractCall, ih]

/-- The trace of `run` is the body trace, then possibly one
`execution failed` log line, then the cleanup trace; cleanup runs on the
final state of the body, and the final state of `run` is that of cleanup. -/
theorem run_trace_decomp (env : Env) (s : BaseScraper)
    (credentials : Option Credentials) (urls : Option (List String)) :
    ∃ tl : List Event,
      (run env s credentials urls).2.1
        = (run_body env s credentials urls).2.1 ++ tl
          ++ (close_browser env (run_body env s credentials urls).2.2).2.1 ∧
      (tl = [] ∨ ∃ m, tl = [Event.logError m]) ∧
      (run env s credentials urls).2.2
        = (close_browser env (run_body env s credentials urls).2.2).2.2 := by
  simp only [run]
  rcases hrb : run_body env s credentials urls with ⟨br, btr, s1⟩
  rcases hcb : close_browser env s1 with ⟨cr, ctr, s2⟩
  cases br with
  | error e =>
    cases cr with
    | error e2 =>
      exact ⟨[Event.logError s!"[{s1.site_name}] execution failed: {e}"],
        by simp, Or.inr ⟨_, rfl⟩, by simp⟩
    | ok v =>
      exact ⟨[Event.logError s!"[{s1.site_name}] execution failed: {e}"],
        by simp, Or.inr ⟨_, rfl⟩, by simp⟩
  | ok v =>
    cases cr with
    | error e2 => exact ⟨[], by simp, Or.inl rfl, by simp⟩
    | ok v2 => exact ⟨[], by simp, Or.inl rfl, by simp⟩

/-- The body leaves the object state as `init_browser` left it (the
authentication and extraction steps do not touch the controller fields). -/
theorem run_body_state (env : Env) (s : BaseScraper)
    (credentials : Option Credentials) (urls : Option (List String)) :
    (run_body env s credentials urls).2.2 = (init_browser env s).2.2 := by
  simp only [run_body]
  split
  next e tr s1 heq => simp [heq]
  next v tr s1 heq => split <;> simp [heq]

/-- If cleanup raises, its exception is the one `run` surfaces
(Python `finally` semantics). -/
theorem run_outcome_of_close_error (env : Env) (s : BaseScraper)
    (credentials : Option Credentials) (urls : Option (List String)) (e : Err)
    (h : (close_browser env (run_body env s credentials urls).2.2).1 = .error e) :
    (run env s credentials urls).1 = .error e := by
  simp only [run]
  rcases hrb : run_body env s credentials urls with ⟨br, btr, s1⟩
  rw [hrb] at h
  dsimp only at h
  rcases hcb : close_browser env s1 with ⟨cr, ctr, s2⟩
  rw [hcb] at h
  dsimp only at h
  cases br <;> simp [h]

/-- Under successful initialization, the body trace is the three init
events, then exactly the authentication-step trace, then an extraction
part. -/
theorem run_body_trace_decomp_ok (env : Env) (s : BaseScraper)
    (credentials : Option Credentials) (urls : Option (List String))
    (hstart : env.startResult = .ok ()) (hlaunch : env.launchResult = .ok ())
    (hnp : env.newPageResult = .ok ()) :
    ∃ t3 : List Event,
      (run_body env s credentials urls).2.1
        = [Event.launch, Event.newPage,
            Event.logInfo s!"[{s.site_name}] completed browser initialization"]
          ++ (auth_phase env { s with browser := true, page := true } credentials).2
          ++ t3 ∧
      (t3 = [] ∨ t3 = (extract_phase env urls).2) := by
  have hib := init_browser_ok env s hstart hlaunch hnp
  simp only [run_body, hib]
  rcases hap : auth_phase env { s with browser := true, page := true } credentials
    with ⟨ar, atr⟩
  cases ar with
  | error e => exact ⟨[], by simp [hap], Or.inl rfl⟩
  | ok b =>
    cases b
    · exact ⟨[], by simp [hap], Or.inl rfl⟩
    · exact ⟨(extract_phase env urls).2, by simp [hap], Or.inr rfl⟩

/-! ## Claim theorems -/

/-- Claim C1 (confirmed): for every run of `run(credentials?, urls)` in
which browser acquisition succeeded, `close_browser` is invoked exactly
once before the outcome of the run — records, empty result, or propagated
error — is returned.  The trace of `run` records everything that
happened before `run` returned to its caller, and the ghost event
`callCloseBrowser` marks each entry into `close_browser`; the
environment is universally quantified, so the statement covers
`authenticate` or `extract_data` raising. -/
theorem run_invokes_close_browser_exactly_once (env : Env) (s : BaseScraper)
    (credentials : Option Credentials) (urls : Option (List String))
    (hstart : env.startResult = .ok ()) (hlaunch : env.launchResult = .ok ()) :
    (trace (run env s credentials urls)).countP evIsCloseCall = 1 := by
  obtain ⟨tl, hdec, htl, _⟩ := run_trace_decomp env s credentials urls
  have hbody := run_body_countP_zero env s credentials urls evIsCloseCall
    rfl rfl (fun m => rfl) (fun c => rfl) (fun m => rfl) (fun u => rfl)
  have htl0 : tl.countP evIsCloseCall = 0 := by
    rcases htl with rfl | ⟨m, rfl⟩ <;> simp [List.countP_cons, evIsCloseCall]
  have hclose := close_browser_one_call env (run_body env s credentials urls).2.2
  simp [trace, hdec, List.countP_append, hbody, htl0, hclose]

theorem run_invokes_close_browser_exactly_once_witness :
    (trace (run okEnv demoScraper none (some ["x"]))).countP evIsCloseCall = 1 :=
  run_invokes_close_browser_exactly_once okEnv demoScraper none (some ["x"])
    rfl rfl

/-- Claim C2 (confirmed): when every `extract_data` call returns normally
and authentication (if requested) succeeds, `run` returns exactly the
concatenation of the per-URL record lists in URL order (within-URL order
preserved by concatenation), and the strategy is invoked once per URL in
the given order. -/
theorem run_returns_concat_in_order (env : Env) (s : BaseScraper)
    (credentials : Option Credentials) (urls : List String)
    (hstart : env.startResult = .ok ()) (hlaunch : env.launchResult = .ok ())
    (hnp : env.newPageResult = .ok ())
    (hpc : env.pageCloseResult = .ok ()) (hbc : env.browserCloseResult = .ok ())
    (hauth : ∀ c, credentials = some c → env.authenticateResult c = .ok true)
    (hex : ∀ u ∈ urls, ∃ d, env.extractResult u = .ok d) :
    outcome (run env s credentials (some urls)) = .ok (concatExtracted env urls) ∧
    (trace (run env s credentials (some urls))).filter evIsExtractCall
      = urls.map Event.callExtract := by
  have hib := init_browser_ok env s hstart hlaunch hnp
  have hcb := close_browser_ok_full env { s with browser := true, page := true }
    rfl rfl hpc hbc
  have hep : extract_phase env (some urls)
      = (.ok (concatExtracted env urls), urls.map Event.callExtract) := by
    cases hu : urls.isEmpty
    · simpa [extract_phase, hu] using extract_all_ok env urls [] hex
    · have hnil : urls = [] := List.isEmpty_iff.mp hu
      subst hnil
      simp [extract_phase, concatExtracted]
  cases credentials with
  | none =>
    simp [run, run_body, outcome, trace, hib, hcb, hep, auth_phase_none,
      List.filter_append, List.filter_cons, evIsExtractCall,
      map_callExtract_filter_self]
  | some c =>
    cases hc : c.isEmpty
    · have hap := auth_phase_true env { s with browser := true, page := true }
        c hc (hauth c rfl)
      simp [run, run_body, outcome, trace, hib, hcb, hep, hap,
        List.filter_append, List.filter_cons, evIsExtractCall,
        map_callExtract_filter_self]
    · have hnil : c = [] := List.isEmpty_iff.mp hc
      subst hnil
      simp [run, run_body, outcome, trace, hib, hcb, hep, auth_phase_empty,
        List.filter_append, List.filter_cons, evIsExtractCall,
        map_callExtract_filter_self]

/-- The scenario given in the spec instantiates C2: two URLs, no credentials,
records `{"id":1}`, then `{"id":2}`, `{"id":3}`. -/
theorem run_returns_concat_in_order_witness :
    outcome (run scenarioEnv demoScraper none
        (some ["https://site/a", "https://site/b"]))
      = .ok [[("id", "1")], [("id", "2")], [("id", "3")]] := by
  have h := run_returns_concat_in_order scenarioEnv demoScraper none
    ["https://site/a", "https://site/b"] rfl rfl rfl rfl rfl
    (fun c hcon => Option.noConfusion hcon)
    (by
      intro u hu
      simp only [List.mem_cons, List.not_mem_nil, or_false] at hu
      rcases hu with rfl | rfl
      · exact ⟨_, rfl⟩
      · exact ⟨_, rfl⟩)
  rw [h.1]
  rfl

/-- Claim C3 (confirmed): if credentials are provided (a non-empty
mapping, per the truthiness test in the source) and `authenticate` returns
`False`, `run` terminates normally with `[]`, raises nothing, and
`extract_data` is never invoked. -/
theorem run_auth_failure_returns_empty (env : Env) (s : BaseScraper)
    (c : Credentials) (urls : Option (List String))
    (hstart : env.startResult = .ok ()) (hlaunch : env.launchResult = .ok ())
    (hnp : env.newPageResult = .ok ())
    (hpc : env.pageCloseResult = .ok ()) (hbc : env.browserCloseResult = .ok ())
    (hne : c.isEmpty = false)
    (hauth : env.authenticateResult c = .ok false) :
    outcome (run env s (some c) urls) = .ok [] ∧
    (trace (run env s (some c) urls)).countP evIsExtractCall = 0 := by
  have hib := init_browser_ok env s hstart hlaunch hnp
  have hap := auth_phase_false env { s with browser := true, page := true }
    c hne hauth
  have hcb := close_browser_ok_full env { s with browser := true, page := true }
    rfl rfl hpc hbc
  simp [run, run_body, outcome, trace, hib, hap, hcb, List.countP_append,
    List.countP_cons, evIsExtractCall]

/-- The auth-failure scenario given in the spec: user and pass supplied,
`authenticate` returns `false`. -/
theorem run_auth_failure_returns_empty_witness :
    outcome (run authFailEnv demoScraper (some [("user", "x"), ("pass", "y")])
        (some ["https://site/a"])) = .ok [] ∧
    (trace (run authFailEnv demoScraper (some [("user", "x"), ("pass", "y")])
        (some ["https://site/a"]))).countP evIsExtractCall = 0 :=
  run_auth_failure_returns_empty authFailEnv demoScraper
    [("user", "x"), ("pass", "y")] (some ["https://site/a"])
    rfl rfl rfl rfl rfl rfl rfl

/-- Claim C4 (confirmed): if `extract_data` raises on the URL `u` that
follows the successfully extracted prefix `pre` (so `u` is the
`pre.length`-th URL, 0-based), `run` propagates that error to its
caller, the strategy was invoked exactly on `pre ++ [u]` in order (no
URL after the failing one is attempted), no partially accumulated
records are returned (the outcome is the error, not a record list), and
the browser was still closed. -/
theorem run_extract_failure_propagates_after_cleanup (env : Env)
    (s : BaseScraper) (credentials : Option Credentials)
    (pre : List String) (u : String) (post : List String) (e : Err)
    (hstart : env.startResult = .ok ()) (hlaunch : env.launchResult = .ok ())
    (hnp : env.newPageResult = .ok ())
    (hpc : env.pageCloseResult = .ok ()) (hbc : env.browserCloseResult = .ok ())
    (hauth : ∀ c, credentials = some c → env.authenticateResult c = .ok true)
    (hpre : ∀ x ∈ pre, ∃ d, env.extractResult x = .ok d)
    (hu : env.extractResult u = .error e) :
    outcome (run env s credentials (some (pre ++ u :: post))) = .error e ∧
    (trace (run env s credentials (some (pre ++ u :: post)))).filter
        evIsExtractCall = (pre ++ [u]).map Event.callExtract ∧
    (trace (run env s credentials (some (pre ++ u :: post)))).countP
        evIsBrowserClose = 1 := by
  have hib := init_browser_ok env s hstart hlaunch hnp
  have hcb := close_browser_ok_full env { s with browser := true, page := true }
    rfl rfl hpc hbc
  have hne : (pre ++ u :: post).isEmpty = false := by cases pre <;> rfl
  have hep : extract_phase env (some (pre ++ u :: post))
      = (.error e, (pre ++ [u]).map Event.callExtract) := by
    simp [extract_phase, hne, extract_all_fail env pre u post e [] hpre hu]
  have hfs := map_callExtract_filter_self (pre ++ [u])
  have hc0 := map_callExtract_countP_zero evIsBrowserClose (fun x => rfl)
    (pre ++ [u])
  cases credentials with
  | none =>
    simp [run, run_body, outcome, trace, hib, hcb, hep, auth_phase_none,
      List.filter_append, List.filter_cons, List.countP_append,
      List.countP_cons, evIsExtractCall, evIsBrowserClose, hfs, hc0]
  | some c =>
    cases hc : c.isEmpty
    · have hap := auth_phase_true env { s with browser := true, page := true }
        c hc (hauth c rfl)
      simp [run, run_body, outcome, trace, hib, hcb, hep, hap,
        List.filter_append, List.filter_cons, List.countP_append,
        List.countP_cons, evIsExtractCall, evIsBrowserClose, hfs, hc0]
    · have hnil : c = [] := List.isEmpty_iff.mp hc
      subst hnil
      simp [run, run_body, outcome, trace, hib, hcb, hep, auth_phase_empty,
        List.filter_append, List.filter_cons, List.countP_append,
        List.countP_cons, evIsExtractCall, evIsBrowserClose, hfs, hc0]

theorem run_extract_failure_propagates_after_cleanup_witness :
    outcome (run extractFailEnv demoScraper none
        (some (["good"] ++ "bad" :: ["after"]))) = .error "boom" ∧
    (trace (run extractFailEnv demoScraper none
        (some (["good"] ++ "bad" :: ["after"])))).filter evIsExtractCall
      = (["good"] ++ ["bad"]).map Event.callExtract ∧
    (trace (run extractFailEnv demoScraper none
        (some (["good"] ++ "bad" :: ["after"])))).countP evIsBrowserClose
      = 1 :=
  run_extract_failure_propagates_after_cleanup extractFailEnv demoScraper none
    ["good"] "bad" ["after"] "boom" rfl rfl rfl rfl rfl
    (fun c hcon => Option.noConfusion hcon)
    (by
      intro x hx
      simp only [List.mem_cons, List.not_mem_nil, or_false] at hx
      subst hx
      exact ⟨_, rfl⟩)
    rfl

/-- Counterexample to claim C5 as stated: in an environment where
everything cooperates except that `page.close()` raises, the cleanup
failure escalates out of `run` (whose primary outcome would have been
`.ok [[("url","x")]]`) and out of `close_browser` — it is not merely
logged. -/
theorem cleanup_failure_escalates_cex :
    outcome (run cleanupFailEnv demoScraper none (some ["x"]))
      = .error "page close failed" ∧
    outcome (close_browser cleanupFailEnv readyScraper)
      = .error "page close failed" :=
  ⟨rfl, rfl⟩

/-- Claim C5 amended: `close_browser` contains no exception handling: if
a page is set and the engine call `page.close()` raises, `close_browser`
raises that error to its caller; when this happens inside the `finally`
of `run`, the cleanup error is surfaced to the caller of `run`, replacing
(masking) the primary outcome or error of the run. -/
theorem close_browser_failure_propagates (env : Env) (s : BaseScraper) (e : Err)
    (hp : s.page = true) (hf : env.pageCloseResult = .error e) :
    outcome (close_browser env s) = .error e ∧
    (∀ credentials urls,
      env.startResult = .ok () → env.launchResult = .ok () →
      env.newPageResult = .ok () →
      outcome (run env s credentials urls) = .error e) := by
  constructor
  · simp [close_browser, outcome, hp, hf]
  · intro credentials urls hstart hlaunch hnp
    have hst : (run_body env s credentials urls).2.2
        = { s with browser := true, page := true } := by
      rw [run_body_state, init_browser_ok env s hstart hlaunch hnp]
    have hcberr : (close_browser env (run_body env s credentials urls).2.2).1
        = .error e := by
      rw [hst]
      simp [close_browser, hf]
    exact run_outcome_of_close_error env s credentials urls e hcberr

theorem close_browser_failure_propagates_witness :
    outcome (run cleanupFailEnv readyScraper none none)
      = .error "page close failed" :=
  (close_browser_failure_propagates cleanupFailEnv readyScraper
    "page close failed" rfl rfl).2 none none rfl rfl rfl

theorem map_callExtract_filter_auth_or_extract (l : List String) :
    (l.map Event.callExtract).filter evIsAuthOrExtract
      = l.map Event.callExtract := by
  induction l with
  | nil => rfl
  | cons u rest ih =>
    simp [List.filter_cons, evIsAuthOrExtract, evIsExtractCall, evIsAuthCall, ih]

/-- Counterexample to claim C6 as stated: an empty Credentials mapping is
supplied (`credentials = {}`), yet `authenticate` is never invoked —
the Python test `if credentials:` is false for the empty dict — and extraction
proceeds directly.  The claim requires exactly one invocation for every
supplied mapping, the empty one included. -/
theorem empty_credentials_skip_auth_cex :
    (trace (run okEnv demoScraper (some []) (some ["x"]))).countP evIsAuthCall
      = 0 ∧
    (trace (run okEnv demoScraper (some []) (some ["x"]))).countP
        evIsExtractCall = 1 :=
  ⟨rfl, rfl⟩

/-- Claim C6 amended: after successful browser initialization,
`authenticate` is invoked exactly once iff the supplied Credentials
mapping is non-empty (Python truthiness of `if credentials:`): when the
mapping is non-empty it is invoked exactly once, with that mapping,
before any extraction; when credentials are omitted or the supplied
mapping is empty it is never invoked. -/
theorem run_auth_iff_nonempty_credentials (env : Env) (s : BaseScraper)
    (credentials : Option Credentials) (urls : Option (List String))
    (hstart : env.startResult = .ok ()) (hlaunch : env.launchResult = .ok ())
    (hnp : env.newPageResult = .ok ()) :
    (trace (run env s credentials urls)).countP evIsAuthCall
      = (if pyTruthyDict credentials then 1 else 0) ∧
    (∀ c, credentials = some c → c.isEmpty = false →
      ∃ l, (trace (run env s credentials urls)).filter evIsAuthOrExtract
          = Event.callAuthenticate c :: l ∧ l.countP evIsAuthCall = 0) := by
  obtain ⟨tl, hdec, htl, _⟩ := run_trace_decomp env s credentials urls
  obtain ⟨t3, hbdec, ht3⟩ :=
    run_body_trace_decomp_ok env s credentials urls hstart hlaunch hnp
  have hcb0 : ((close_browser env
      (run_body env s credentials urls).2.2).2.1).countP evIsAuthCall = 0 :=
    close_browser_countP_zero env _ evIsAuthCall rfl rfl rfl (fun m => rfl)
  have hcbf : ((close_browser env
      (run_body env s credentials urls).2.2).2.1).filter evIsAuthOrExtract
      = [] := by
    refine filter_eq_nil_of_mem_false ?_
    intro ev hev
    rcases close_browser_trace_mem env _ ev hev with rfl | rfl | rfl | ⟨m, rfl⟩
      <;> rfl
  have htl0 : tl.countP evIsAuthCall = 0 ∧ tl.filter evIsAuthOrExtract = [] := by
    rcases htl with rfl | ⟨m, rfl⟩ <;>
      simp [List.countP_cons, List.filter_cons, evIsAuthCall, evIsAuthOrExtract,
        evIsExtractCall]
  have ht30 : t3.countP evIsAuthCall = 0 ∧
      t3.filter evIsAuthOrExtract = t3 ∧
      (t3.filter evIsAuthOrExtract).countP evIsAuthCall = 0 := by
    have hsh : ∃ l2 : List String, t3 = l2.map Event.callExtract := by
      rcases ht3 with rfl | heq
      · exact ⟨[], rfl⟩
      · obtain ⟨l2, hl2⟩ := extract_phase_trace_shape env urls
        exact ⟨l2, by rw [heq, hl2]⟩
    obtain ⟨l2, rfl⟩ := hsh
    refine ⟨map_callExtract_countP_zero evIsAuthCall (fun x => rfl) l2,
      map_callExtract_filter_auth_or_extract l2, ?_⟩
    rw [map_callExtract_filter_auth_or_extract l2]
    exact map_callExtract_countP_zero evIsAuthCall (fun x => rfl) l2
  constructor
  · -- the count of `authenticate` invocations
    cases credentials with
    | none =>
      simp [trace, hdec, hbdec, auth_phase_none, List.countP_append,
        List.countP_cons, evIsAuthCall, ht30.1, htl0.1, hcb0, pyTruthyDict]
    | some c =>
      cases hc : c.isEmpty
      · have h1 : (auth_phase env { s with browser := true, page := true }
            (some c)).2.countP evIsAuthCall = 1 := by
          cases hres : env.authenticateResult c with
          | error e =>
            simp [auth_phase_raises env _ c e hc hres, List.countP_cons,
              evIsAuthCall]
          | ok b =>
            cases b
            · simp [auth_phase_false env _ c hc hres, List.countP_cons,
                evIsAuthCall]
            · simp [auth_phase_true env _ c hc hres, List.countP_cons,
                evIsAuthCall]
        have htrue : pyTruthyDict (some c) = true := by
          simp [pyTruthyDict, hc]
        simp [trace, hdec, hbdec, List.countP_append, List.countP_cons,
          evIsAuthCall, ht30.1, htl0.1, hcb0, htrue, h1]
      · have hnil : c = [] := List.isEmpty_iff.mp hc
        subst hnil
        simp [trace, hdec, hbdec, auth_phase_empty, List.countP_append,
          List.countP_cons, evIsAuthCall, ht30.1, htl0.1, hcb0, pyTruthyDict]
  · -- the single `authenticate` call precedes every extraction call
    intro c hcred hc
    subst hcred
    have hauthf : (auth_phase env { s with browser := true, page := true }
        (some c)).2.filter evIsAuthOrExtract = [Event.callAuthenticate c] := by
      cases hres : env.authenticateResult c with
      | error e =>
        simp [auth_phase_raises env _ c e hc hres, List.filter_cons,
          evIsAuthOrExtract, evIsAuthCall]
      | ok b =>
        cases b
        · simp [auth_phase_false env _ c hc hres, List.filter_cons,
            evIsAuthOrExtract, evIsAuthCall, evIsExtractCall]
        · simp [auth_phase_true env _ c hc hres, List.filter_cons,
            evIsAuthOrExtract, evIsAuthCall, evIsExtractCall]
    refine ⟨t3.filter evIsAuthOrExtract, ?_, ht30.2.2⟩
    simp [trace, hdec, hbdec, List.filter_append, List.filter_cons,
      evIsAuthOrExtract, evIsAuthCall, evIsExtractCall, hauthf, htl0.2, hcbf]

theorem run_auth_iff_nonempty_credentials_witness :
    (trace (run okEnv demoScraper (some [("user", "x")]) (some ["p"]))).countP
        evIsAuthCall = 1 := by
  have h := (run_auth_iff_nonempty_credentials okEnv demoScraper
    (some [("user", "x")]) (some ["p"]) rfl rfl rfl).1
  simpa [pyTruthyDict] using h

/-- Claim C7 (confirmed): when `goto` on the page fails (e.g. the bounded
30s timeout elapses), `navigate_to` logs an error message carrying the
site name and the failure detail and re-raises the error — the failure
is not swallowed; on a successful load it additionally waits the settle
delay (`wait_time`, default 3000 ms) before logging success and
returning. -/
theorem navigate_to_logs_and_raises_on_failure (env : Env) (s : BaseScraper)
    (url : String) (wait_time : Nat) (hp : s.page = true) :
    (∀ e, env.gotoResult url = .error e →
      navigate_to env s url wait_time
        = (.error e, [Event.engineGoto url,
            Event.logError s!"[{s.site_name}] failed to navigate to: {e}"],
           s)) ∧
    (env.gotoResult url = .ok () →
      navigate_to env s url wait_time
        = (.ok (), [Event.engineGoto url, Event.waitTimeout wait_time,
            Event.logInfo s!"[{s.site_name}] successfully navigated to: {url}"],
           s)) := by
  constructor
  · intro e he
    simp [navigate_to, hp, he]
  · intro h
    simp [navigate_to, hp, h]

theorem navigate_to_logs_and_raises_on_failure_witness :
    navigate_to gotoFailEnv readyScraper "https://site/a" navigateDefaultWait
      = (.error "Timeout 30000ms exceeded",
         [Event.engineGoto "https://site/a",
          Event.logError
            "[demo] failed to navigate to: Timeout 30000ms exceeded"],
         readyScraper) := by
  have h := (navigate_to_logs_and_raises_on_failure gotoFailEnv readyScraper
    "https://site/a" navigateDefaultWait rfl).1 "Timeout 30000ms exceeded" rfl
  simpa [readyScraper, demoScraper, BaseScraper.init] using h

/-- Claim C8 (confirmed): with a cooperating engine, every run launches
exactly one browser process and opens exactly one page, and destroys
both (exactly one engine page close and one engine browser close) —
creations equal destructions, so no live browser or page survives the
run.  (The `self.browser` / `self.page` fields still reference the
now-closed handles afterwards; what the run balances are the live
engine resources.) -/
theorem run_browser_page_balanced (env : Env) (s : BaseScraper)
    (credentials : Option Credentials) (urls : Option (List String))
    (hstart : env.startResult = .ok ()) (hlaunch : env.launchResult = .ok ())
    (hnp : env.newPageResult = .ok ())
    (hpc : env.pageCloseResult = .ok ()) (hbc : env.browserCloseResult = .ok ()) :
    (trace (run env s credentials urls)).countP evIsLaunch = 1 ∧
    (trace (run env s credentials urls)).countP evIsNewPage = 1 ∧
    (trace (run env s credentials urls)).countP evIsPageClose = 1 ∧
    (trace (run env s credentials urls)).countP evIsBrowserClose = 1 := by
  obtain ⟨tl, hdec, htl, _⟩ := run_trace_decomp env s credentials urls
  obtain ⟨t3, hbdec, ht3⟩ :=
    run_body_trace_decomp_ok env s credentials urls hstart hlaunch hnp
  have hst : (run_body env s credentials urls).2.2
      = { s with browser := true, page := true } := by
    rw [run_body_state, init_browser_ok env s hstart hlaunch hnp]
  have hcb : close_browser env (run_body env s credentials urls).2.2
      = (.ok (), [Event.callCloseBrowser, Event.enginePageClose,
          Event.engineBrowserClose,
          Event.logInfo s!"[{s.site_name}] the browser has been closed"],
         { s with browser := true, page := true }) := by
    rw [hst]
    exact close_browser_ok_full env _ rfl rfl hpc hbc
  have hmid : ∀ p : Event → Bool,
      (∀ c, p (Event.callAuthenticate c) = false) →
      (∀ m, p (Event.logError m) = false) →
      (∀ x, p (Event.callExtract x) = false) →
      ((auth_phase env { s with browser := true, page := true }
          credentials).2).countP p = 0 ∧
      t3.countP p = 0 ∧ tl.countP p = 0 := by
    intro p h4 h5 h6
    refine ⟨auth_phase_countP_zero env _ credentials p h4 h5, ?_, ?_⟩
    · rcases ht3 with rfl | heq
      · rfl
      · rw [heq]
        exact extract_phase_countP_zero env urls p h6
    · rcases htl with rfl | ⟨m, rfl⟩
      · rfl
      · simp [List.countP_cons, h5]
  obtain ⟨a1, b1, c1⟩ := hmid evIsLaunch (fun _ => rfl) (fun _ => rfl)
    (fun _ => rfl)
  obtain ⟨a2, b2, c2⟩ := hmid evIsNewPage (fun _ => rfl) (fun _ => rfl)
    (fun _ => rfl)
  obtain ⟨a3, b3, c3⟩ := hmid evIsPageClose (fun _ => rfl) (fun _ => rfl)
    (fun _ => rfl)
  obtain ⟨a4, b4, c4⟩ := hmid evIsBrowserClose (fun _ => rfl) (fun _ => rfl)
    (fun _ => rfl)
  refine ⟨?_, ?_, ?_, ?_⟩ <;>
    simp [trace, hdec, hbdec, hcb, List.countP_append, List.countP_cons,
      a1, b1, c1, a2, b2, c2, a3, b3, c3, a4, b4, c4,
      evIsLaunch, evIsNewPage, evIsPageClose, evIsBrowserClose]

theorem run_browser_page_balanced_witness :
    (trace (run okEnv demoScraper none (some ["x"]))).countP evIsLaunch = 1 ∧
    (trace (run okEnv demoScraper none (some ["x"]))).countP evIsNewPage = 1 ∧
    (trace (run okEnv demoScraper none (some ["x"]))).countP evIsPageClose
      = 1 ∧
    (trace (run okEnv demoScraper none (some ["x"]))).countP evIsBrowserClose
      = 1 :=
  run_browser_page_balanced okEnv demoScraper none (some ["x"])
    rfl rfl rfl rfl rfl

/-- Claim C9 (confirmed): `close_browser` is safe over
partially-initialized state: if no page is set, no engine page close is
attempted; if no browser is set, no engine browser close is attempted;
and when neither is set (acquisition failed before anything was
created), `close_browser` performs no engine close at all, raises
nothing, and just logs — whatever the environment would answer. -/
theorem close_browser_safe_on_partial_state (env : Env) (s : BaseScraper) :
    (s.page = false → (trace (close_browser env s)).countP evIsPageClose = 0) ∧
    (s.browser = false →
      (trace (close_browser env s)).countP evIsBrowserClose = 0) ∧
    (s.page = false → s.browser = false →
      close_browser env s
        = (.ok (), [Event.callCloseBrowser,
            Event.logInfo s!"[{s.site_name}] the browser has been closed"],
           s)) := by
  refine ⟨?_, ?_, ?_⟩
  · intro hp
    cases hb : s.browser <;> cases hbc : env.browserCloseResult <;>
      simp [close_browser, trace, hp, hb, hbc, List.countP_cons, evIsPageClose]
  · intro hb
    cases hp : s.page <;> cases hpc : env.pageCloseResult <;>
      simp [close_browser, trace, hp, hb, hpc, List.countP_cons,
        evIsBrowserClose]
  · intro hp hb
    simp [close_browser, hp, hb]

theorem close_browser_safe_on_partial_state_witness :
    close_browser okEnv demoScraper
      = (.ok (), [Event.callCloseBrowser,
          Event.logInfo "[demo] the browser has been closed"], demoScraper) := by
  have h := (close_browser_safe_on_partial_state okEnv demoScraper).2.2 rfl rfl
  simpa [demoScraper, BaseScraper.init] using h

/-- Claim C10 (confirmed): with a cooperating engine and no credentials,
omitting `urls` (Python default `None`) and passing the empty list are
indistinguishable — the two calls are equal outright — and either way
`run` returns `[]` without ever invoking `extract_data`, while the
browser is still created and closed exactly once. -/
theorem run_no_urls_no_extraction (env : Env) (s : BaseScraper)
    (hstart : env.startResult = .ok ()) (hlaunch : env.launchResult = .ok ())
    (hnp : env.newPageResult = .ok ())
    (hpc : env.pageCloseResult = .ok ()) (hbc : env.browserCloseResult = .ok ()) :
    run env s none (some []) = run env s none none ∧
    outcome (run env s none none) = .ok [] ∧
    (trace (run env s none none)).countP evIsExtractCall = 0 ∧
    (trace (run env s none none)).countP evIsLaunch = 1 ∧
    (trace (run env s none none)).countP evIsCloseCall = 1 ∧
    (trace (run env s none none)).countP evIsBrowserClose = 1 := by
  have hib := init_browser_ok env s hstart hlaunch hnp
  have hcb := close_browser_ok_full env { s with browser := true, page := true }
    rfl rfl hpc hbc
  have h1 : run env s none (some []) =
      ((.ok [], [Event.launch, Event.newPage,
        Event.logInfo s!"[{s.site_name}] completed browser initialization",
        Event.callCloseBrowser, Event.enginePageClose,
        Event.engineBrowserClose,
        Event.logInfo s!"[{s.site_name}] the browser has been closed"],
        { s with browser := true, page := true })
        : Except Err (List Record) × List Event × BaseScraper) := by
    simp [run, run_body, hib, hcb, auth_phase_none, extract_phase]
  have h2 : run env s none none =
      ((.ok [], [Event.launch, Event.newPage,
        Event.logInfo s!"[{s.site_name}] completed browser initialization",
        Event.callCloseBrowser, Event.enginePageClose,
        Event.engineBrowserClose,
        Event.logInfo s!"[{s.site_name}] the browser has been closed"],
        { s with browser := true, page := true })
        : Except Err (List Record) × List Event × BaseScraper) := by
    simp [run, run_body, hib, hcb, auth_phase_none, extract_phase]
  refine ⟨h1.trans h2.symm, ?_, ?_, ?_, ?_, ?_⟩ <;>
    simp [outcome, trace, h2, List.countP_cons, evIsExtractCall, evIsLaunch,
      evIsCloseCall, evIsBrowserClose]

theorem run_no_urls_no_extraction_witness :
    run okEnv demoScraper none (some []) = run okEnv demoScraper none none ∧
    outcome (run okEnv demoScraper none none) = .ok [] ∧
    (trace (run okEnv demoScraper none none)).countP evIsExtractCall = 0 ∧
    (trace (run okEnv demoScraper none none)).countP evIsLaunch = 1 ∧
    (trace (run okEnv demoScraper none none)).countP evIsCloseCall = 1 ∧
    (trace (run okEnv demoScraper none none)).countP evIsBrowserClose = 1 :=
  run_no_urls_no_extraction okEnv demoScraper rfl rfl rfl rfl rfl

end ScraperSpec
